import Mathlib

/-!
# Shallow embedding of the health-app backend authentication subsystem

This file embeds the authentication subsystem of `src/main.py`: credential
hashing, token issuance and verification, registration, login, and the
access guard applied to the protected routes.

Modelling conventions:
* UTC time is a `Nat` of seconds since an arbitrary epoch.  Each operation
  takes the ambient clock `now` explicitly (the code reads
  `datetime.utcnow()`).
* The Mongo `users_collection` is a `Store`: a list of user documents in
  insertion order plus the next object id the store will assign.
* Cryptographic primitives that live in external libraries (bcrypt via
  passlib, HS256 signing via jose) are modelled from the spec; their
  definitions carry a `Modelled from the spec:` doc comment.
* Exceptions raised by the external store during a request are made explicit
  as fault parameters, so the `try/except` blocks of `register` and `login`
  become total case analyses.
-/

namespace HealthApp

/-- `SECRET_KEY` (`main.py` line 29): the process-wide signing secret, here the
insecure local-development default of the `os.getenv` call. -/
def SECRET_KEY : String := "your-secret-key-here-change-in-production"

/-- `ACCESS_TOKEN_EXPIRE_MINUTES = 30` (`main.py` line 31). -/
def ACCESS_TOKEN_EXPIRE_MINUTES : Nat := 30

/-- Modelled from the spec: the salted bcrypt hash string produced by the
external passlib/bcrypt context (`pwd_context`), which is not under `src/`.
Spec §4.1 requires a salted, non-deterministic one-way hash whose only
contract is that verification round-trips; we model the hash string as the
salt drawn for the call together with the hashed plaintext. -/
structure HashString where
  salt : Nat
  pw : String
deriving DecidableEq

/-- `get_password_hash` (`main.py` lines 72-73): hashes the password through
the bcrypt context; the fresh salt the library draws is an explicit
argument here (the source of the hash's non-determinism). -/
def get_password_hash (salt : Nat) (password : String) : HashString :=
  { salt := salt, pw := password }

/-- `verify_password` (`main.py` lines 69-70).  The underlying
`pwd_context.verify` is modelled from the spec (§4.1): true iff the
plaintext re-hashes, under the salt stored in the hash string, to the
stored hash. -/
def verify_password (plain_password : String) (hashed_password : HashString) : Bool :=
  get_password_hash hashed_password.salt plain_password == hashed_password

/-- A decoded JWT payload: exactly the claims `create_access_token` writes —
the optional `"sub"` claim and the `"exp"` expiry instant (seconds). -/
structure Payload where
  sub : Option String
  exp : Nat
deriving DecidableEq

/-- A token string on the wire: either not a decodable JWT at all, or a JWT
carrying a payload and signed (HS256) with some secret.  Modelled from the
spec (§3): a token is "reconstructible only by verifying the signature with
the shared secret", so the signature is modelled by recording which secret
signed the token. -/
inductive TokenString where
  | malformed (s : String)
  | signed (payload : Payload) (secret : String)
deriving DecidableEq

/-- `create_access_token` (`main.py` lines 75-83).  At both call sites
`data` is `{"sub": username}`, so it is modelled by the `sub` claim; the
function then adds `"exp"`.  `if expires_delta:` is Python truthiness:
both `None` and a zero `timedelta` fall to the else branch, which uses
`timedelta(minutes=15)`. -/
def create_access_token (sub : Option String) (expires_delta : Option Nat) (now : Nat) :
    TokenString :=
  let expire :=
    match expires_delta with
    | some d => if d == 0 then now + 15 * 60 else now + d
    | none => now + 15 * 60
  TokenString.signed { sub := sub, exp := expire } SECRET_KEY

/-- Modelled from the spec: `jwt.decode(token, SECRET_KEY, algorithms=[ALGORITHM])`
of the external jose library, which is not under `src/`.  Spec §4.2: the
verifier "fails with `InvalidToken` if the signature does not verify, the
token is malformed, or `now_utc >= expiry`", returns the payload on
success, and "no clock-skew leeway is applied". -/
def jwt_decode (token : TokenString) (key : String) (now : Nat) : Except Unit Payload :=
  match token with
  | .malformed _ => .error ()
  | .signed payload secret =>
    if secret ≠ key then .error ()
    else if payload.exp ≤ now then .error ()
    else .ok payload

/-- A user document exactly as `register` inserts it (`main.py` lines
133-138) and as it sits in `users_collection`: the store-assigned `_id`
(modelled as a `Nat`) plus the four fields `register` writes.  `password`
holds the bcrypt hash, never the plaintext. -/
structure User where
  objectId : Nat
  username : String
  email : String
  password : HashString
  created_at : Nat
deriving DecidableEq

/-- The `users_collection` document store: documents in insertion order,
plus the next object id the store will assign on insert. -/
structure Store where
  users : List User
  nextId : Nat
deriving DecidableEq

/-- `get_user_by_username` (`main.py` lines 85-86):
`find_one({"username": username})`, the first matching document or `None`. -/
def get_user_by_username (store : Store) (username : String) : Option User :=
  store.users.find? (fun u => u.username == username)

/-- `get_user_by_email` (`main.py` lines 88-89). -/
def get_user_by_email (store : Store) (email : String) : Option User :=
  store.users.find? (fun u => u.email == email)

/-- `users_collection.find_one({"_id": result.inserted_id})` in `register`
(`main.py` line 150). -/
def get_user_by_id (store : Store) (objectId : Nat) : Option User :=
  store.users.find? (fun u => u.objectId == objectId)

/-- `UserRegister` (`main.py` lines 43-46).  `username` and `password` are
plain `str` fields — pydantic performs no emptiness check on them. -/
structure UserRegister where
  username : String
  email : String
  password : String
deriving DecidableEq

/-- `UserLogin` (`main.py` lines 48-50). -/
structure UserLogin where
  username : String
  password : String
deriving DecidableEq

/-- `UserResponse` (`main.py` lines 52-56): the sanitized user view sent to
clients — exactly `id` (string), `username`, `email`, `created_at`.  The
type has no password field. -/
structure UserResponse where
  id : String
  username : String
  email : String
  created_at : Nat
deriving DecidableEq

/-- `AuthResponse` (`main.py` lines 62-66). -/
structure AuthResponse where
  success : Bool
  message : String
  user : Option UserResponse := none
  token : Option TokenString := none
deriving DecidableEq

/-- The `UserResponse(id=str(u["_id"]), username=..., email=...,
created_at=...)` construction shared by `register`, `login` and
`get_current_user_info`. -/
def userResponseOf (u : User) : UserResponse :=
  { id := toString u.objectId, username := u.username, email := u.email,
    created_at := u.created_at }

/-- The transport behaviour of the external Mongo store during one
`register` call: for each collection operation in the `try` block, the
exception text `str(e)` if that call raises, plus whether `insert_one`
reports a falsy `inserted_id`. -/
structure RegisterFaults where
  find_username_exc : Option String := none
  find_email_exc : Option String := none
  insert_exc : Option String := none
  insert_id_falsy : Bool := false
  find_created_exc : Option String := none
deriving DecidableEq

/-- A fault-free store: every collection call succeeds. -/
def noFaults : RegisterFaults := {}

/-- `register` (`main.py` lines 115-174): one call against store state
`store`, with ambient clock `now` and the bcrypt salt `salt` drawn for this
call.  Returns the `AuthResponse` together with the store state after the
call.  The `try/except Exception` block is modelled by the `RegisterFaults`
branches, each producing the `"Registration failed: " + str(e)` response;
the unreachable `find_one`-returned-`None` branch models the `TypeError`
Python would raise when subscripting `None`. -/
def register (store : Store) (f : RegisterFaults) (salt : Nat) (now : Nat)
    (user_data : UserRegister) : AuthResponse × Store :=
  match f.find_username_exc with
  | some e => ({ success := false, message := "Registration failed: " ++ e }, store)
  | none =>
    if (get_user_by_username store user_data.username).isSome then
      ({ success := false, message := "Username already exists" }, store)
    else
      match f.find_email_exc with
      | some e => ({ success := false, message := "Registration failed: " ++ e }, store)
      | none =>
        if (get_user_by_email store user_data.email).isSome then
          ({ success := false, message := "Email already registered" }, store)
        else
          let hashed_password := get_password_hash salt user_data.password
          let user_doc : User :=
            { objectId := store.nextId, username := user_data.username,
              email := user_data.email, password := hashed_password,
              created_at := now }
          match f.insert_exc with
          | some e => ({ success := false, message := "Registration failed: " ++ e }, store)
          | none =>
            let inserted : Store :=
              { users := store.users ++ [user_doc], nextId := store.nextId + 1 }
            if f.insert_id_falsy then
              ({ success := false, message := "Failed to create user" }, inserted)
            else
              let access_token := create_access_token (some user_data.username)
                (some (ACCESS_TOKEN_EXPIRE_MINUTES * 60)) now
              match f.find_created_exc with
              | some e =>
                ({ success := false, message := "Registration failed: " ++ e }, inserted)
              | none =>
                match get_user_by_id inserted store.nextId with
                | none =>
                  ({ success := false,
                     message :=
                       "Registration failed: NoneType object is not subscriptable" },
                   inserted)
                | some created_user =>
                  ({ success := true, message := "User created successfully",
                     user := some (userResponseOf created_user),
                     token := some access_token }, inserted)

/-- `login` (`main.py` lines 176-219): `f` is the exception text raised by
the store lookup inside the `try` block, if any. -/
def login (store : Store) (f : Option String) (now : Nat) (user_data : UserLogin) :
    AuthResponse :=
  match f with
  | some e => { success := false, message := "Login failed: " ++ e }
  | none =>
    match get_user_by_username store user_data.username with
    | none => { success := false, message := "Invalid username or password" }
    | some user =>
      if !verify_password user_data.password user.password then
        { success := false, message := "Invalid username or password" }
      else
        { success := true, message := "Login successful",
          user := some (userResponseOf user),
          token := some (create_access_token (some user.username)
            (some (ACCESS_TOKEN_EXPIRE_MINUTES * 60)) now) }

/-- An HTTP error response, as raised via `HTTPException`: status code,
detail message, and the optional `WWW-Authenticate` header value. -/
structure HttpErr where
  status_code : Nat
  detail : String
  www_authenticate : Option String
deriving DecidableEq

/-- The `credentials_exception` of `get_current_user` (`main.py` lines
92-96): HTTP 401, generic detail, `WWW-Authenticate: Bearer`. -/
def credentials_exception : HttpErr :=
  { status_code := 401, detail := "Could not validate credentials",
    www_authenticate := some "Bearer" }

/-- Modelled from the spec: FastAPI's `HTTPBearer` dependency (`security`,
`main.py` line 34) is library code not under `src/`.  Per spec §4.6,
absence of the header "is a caller error (missing credentials) distinct
from an invalid token": with `auto_error` the dependency rejects a request
carrying no usable `Authorization: Bearer` header as HTTP 403
"Not authenticated", before the route's own logic runs and with no
challenge header. -/
def missing_credentials_error : HttpErr :=
  { status_code := 403, detail := "Not authenticated", www_authenticate := none }

/-- `get_current_user` (`main.py` lines 91-108).  `credentials` is the
bearer token extracted by `HTTPBearer`: `none` when the request carries no
usable `Authorization` header. -/
def get_current_user (store : Store) (now : Nat) (credentials : Option TokenString) :
    Except HttpErr User :=
  match credentials with
  | none => .error missing_credentials_error
  | some token =>
    match jwt_decode token SECRET_KEY now with
    | .error _ => .error credentials_exception
    | .ok payload =>
      match payload.sub with
      | none => .error credentials_exception
      | some username =>
        match get_user_by_username store username with
        | none => .error credentials_exception
        | some user => .ok user

/-- `get_current_user_info` — the protected `GET /api/auth/me` route
(`main.py` lines 221-228). -/
def get_current_user_info (store : Store) (now : Nat)
    (credentials : Option TokenString) : Except HttpErr UserResponse :=
  match get_current_user store now credentials with
  | .error e => .error e
  | .ok current_user => .ok (userResponseOf current_user)

/-- The document shape `GET /api/users` returns per user:
`find({}, {"password": 0})` followed by `user["id"] = str(user["_id"])` and
`del user["_id"]` — every stored field except the password hash, with the
object id stringified. -/
structure PublicUser where
  id : String
  username : String
  email : String
  created_at : Nat
deriving DecidableEq

/-- The projection-and-rename applied to each document by `get_all_users`. -/
def publicUserOf (u : User) : PublicUser :=
  { id := toString u.objectId, username := u.username, email := u.email,
    created_at := u.created_at }

/-- `get_all_users` — the protected `GET /api/users` route (`main.py`
lines 230-237). -/
def get_all_users (store : Store) (now : Nat) (credentials : Option TokenString) :
    Except HttpErr (List PublicUser) :=
  match get_current_user store now credentials with
  | .error e => .error e
  | .ok _ => .ok (store.users.map publicUserOf)

/-- A concrete registered user, used by witnesses. -/
def aliceUser : User :=
  { objectId := 7, username := "alice", email := "alice@x.com",
    password := get_password_hash 3 "pw123", created_at := 100 }

/-- A concrete store holding only `aliceUser`, used by witnesses. -/
def aliceStore : Store := { users := [aliceUser], nextId := 8 }

/-- The empty store, used by witnesses. -/
def emptyStore : Store := { users := [], nextId := 0 }

/-- Appending a document whose object id clashes with no earlier document is
found by an id lookup. -/
theorem find_objectId_append (l : List User) (u : User) (n : Nat)
    (hn : u.objectId = n) (h : ∀ w ∈ l, w.objectId ≠ n) :
    (l ++ [u]).find? (fun w => w.objectId == n) = some u := by
  induction l with
  | nil => simp [List.find?, hn]
  | cons a t ih =>
    have ha : (a.objectId == n) = false := by
      simpa using h a (by simp)
    rw [List.cons_append]
    simp only [List.find?, ha]
    exact ih (fun w hw => h w (by simp [hw]))

/-- An access-guard success resolves the current user from the store's
documents. -/
theorem get_current_user_ok_mem (store : Store) (now : Nat)
    (c : Option TokenString) (u : User)
    (h : get_current_user store now c = .ok u) : u ∈ store.users := by
  cases c with
  | none => simp [get_current_user] at h
  | some tok =>
    cases hd : jwt_decode tok SECRET_KEY now with
    | error err => simp [get_current_user, hd] at h
    | ok payload =>
      cases hs : payload.sub with
      | none => simp [get_current_user, hd, hs] at h
      | some username =>
        cases hu : get_user_by_username store username with
        | none => simp [get_current_user, hd, hs, hu] at h
        | some w =>
          have hw : w = u := by
            simpa [get_current_user, hd, hs, hu] using h
          subst hw
          exact List.mem_of_find?_eq_some
            (by simpa [get_user_by_username] using hu)

/-- C1: the Credential Hasher round-trips: for any salts, a non-empty
password verifies against its own hash, and a password never verifies
against the hash of a distinct password. -/
theorem hash_verify_round_trip (p q : String) (s t : Nat) :
    (p ≠ "" → verify_password p (get_password_hash s p) = true)
    ∧ (p ≠ q → verify_password p (get_password_hash t q) = false) := by
  constructor
  · intro _
    simp [verify_password, get_password_hash]
  · intro hpq
    simp only [verify_password, get_password_hash, beq_eq_false_iff_ne, ne_eq,
      HashString.mk.injEq, not_and]
    intro _
    exact hpq

/-- Witness for C1 at concrete passwords and salts. -/
theorem hash_verify_round_trip_witness :
    verify_password "pw123" (get_password_hash 0 "pw123") = true
    ∧ verify_password "pw123" (get_password_hash 1 "wrong") = false :=
  ⟨(hash_verify_round_trip "pw123" "wrong" 0 1).1 (by decide),
   (hash_verify_round_trip "pw123" "wrong" 0 1).2 (by decide)⟩

/-- C2: the login failure for a nonexistent username and the failure for an
existing username with a wrong password carry the identical body:
`success=false`, message "Invalid username or password", and the two
responses are equal. -/
theorem login_failure_indistinguishable (store : Store) (now : Nat)
    (d₁ d₂ : UserLogin) (u : User)
    (h₁ : get_user_by_username store d₁.username = none)
    (h₂ : get_user_by_username store d₂.username = some u)
    (h₃ : verify_password d₂.password u.password = false) :
    login store none now d₁
      = { success := false, message := "Invalid username or password" }
    ∧ login store none now d₂
      = { success := false, message := "Invalid username or password" }
    ∧ login store none now d₁ = login store none now d₂ := by
  have e₁ : login store none now d₁
      = { success := false, message := "Invalid username or password" } := by
    simp [login, h₁]
  have e₂ : login store none now d₂
      = { success := false, message := "Invalid username or password" } := by
    simp [login, h₂, h₃]
  exact ⟨e₁, e₂, e₁.trans e₂.symm⟩

/-- Witness for C2: `aliceStore` holds only "alice"; logging in as "bob"
and logging in as "alice" with a wrong password give the same response. -/
theorem login_failure_indistinguishable_witness :
    login aliceStore none 0 { username := "bob", password := "pw" }
      = { success := false, message := "Invalid username or password" }
    ∧ login aliceStore none 0 { username := "alice", password := "wrong" }
      = { success := false, message := "Invalid username or password" }
    ∧ login aliceStore none 0 { username := "bob", password := "pw" }
      = login aliceStore none 0 { username := "alice", password := "wrong" } :=
  login_failure_indistinguishable aliceStore 0
    { username := "bob", password := "pw" }
    { username := "alice", password := "wrong" } aliceUser
    (by decide) (by decide) (by decide)

/-- C3: `register` rejects a duplicate username with success=false and
"Username already exists" before the email is even consulted, rejects a
fresh username with a duplicate email with "Email already registered", and
leaves the store unchanged on both paths. -/
theorem register_duplicate_rejections (store : Store) (f : RegisterFaults)
    (salt now : Nat) (d : UserRegister) (u : User) :
    (f.find_username_exc = none → get_user_by_username store d.username = some u →
      register store f salt now d
        = ({ success := false, message := "Username already exists" }, store))
    ∧ (f.find_username_exc = none → f.find_email_exc = none →
       get_user_by_username store d.username = none →
       (get_user_by_email store d.email).isSome = true →
      register store f salt now d
        = ({ success := false, message := "Email already registered" }, store)) := by
  constructor
  · intro hf hu
    simp [register, hf, hu]
  · intro hf hf' hu he
    simp [register, hf, hf', hu, he]

/-- Witness for C3 on `aliceStore`: re-registering the username "alice",
then registering a fresh username with alice's email. -/
theorem register_duplicate_rejections_witness :
    register aliceStore noFaults 0 5
        { username := "alice", email := "z@x.com", password := "p" }
      = ({ success := false, message := "Username already exists" }, aliceStore)
    ∧ register aliceStore noFaults 0 5
        { username := "bob", email := "alice@x.com", password := "p" }
      = ({ success := false, message := "Email already registered" }, aliceStore) :=
  ⟨(register_duplicate_rejections aliceStore noFaults 0 5
      { username := "alice", email := "z@x.com", password := "p" } aliceUser).1
      rfl (by decide),
   (register_duplicate_rejections aliceStore noFaults 0 5
      { username := "bob", email := "alice@x.com", password := "p" } aliceUser).2
      rfl rfl (by decide) (by decide)⟩

/-- C4 counterexample: issuing without a caller-specified TTL encodes
expiry now + 15 minutes, not now + 30 minutes: at now = 0 the encoded
expiry is 900 s, and 900 s is not 30 minutes. -/
theorem default_ttl_counterexample :
    create_access_token (some "alice") none 0
      = TokenString.signed { sub := some "alice", exp := 15 * 60 } SECRET_KEY
    ∧ (15 * 60 : Nat) ≠ 30 * 60 :=
  ⟨by decide, by decide⟩

/-- C4 amended: without a caller-specified TTL `create_access_token` encodes
expiry now + 15 minutes (the in-code default), while registration and login
explicitly pass the 30-minute `ACCESS_TOKEN_EXPIRE_MINUTES`, so every token
they issue expires at now + 30 minutes. -/
theorem token_expiry_defaults (s : Option String) (now salt : Nat) (store : Store)
    (f : RegisterFaults) (e : Option String) (d : UserRegister) (ld : UserLogin)
    (t t' : TokenString) :
    create_access_token s none now
      = TokenString.signed { sub := s, exp := now + 15 * 60 } SECRET_KEY
    ∧ ((register store f salt now d).1.token = some t →
        t = TokenString.signed { sub := some d.username, exp := now + 30 * 60 }
              SECRET_KEY)
    ∧ ((login store e now ld).token = some t' →
        t' = TokenString.signed { sub := some ld.username, exp := now + 30 * 60 }
              SECRET_KEY) := by
  refine ⟨rfl, ?_, ?_⟩
  · intro h
    simp only [register] at h
    repeat' split at h
    all_goals simp_all [create_access_token, ACCESS_TOKEN_EXPIRE_MINUTES]
  · intro h
    cases e with
    | some s' => simp [login] at h
    | none =>
      cases hu : get_user_by_username store ld.username with
      | none => simp [login, hu] at h
      | some user =>
        by_cases hv : verify_password ld.password user.password
        · have husr : user.username = ld.username := by
            have hfind := List.find?_some
              (p := fun w : User => w.username == ld.username)
              (by simpa [get_user_by_username] using hu)
            simpa using hfind
          simp [login, hu, hv, create_access_token,
            ACCESS_TOKEN_EXPIRE_MINUTES] at h
          simp [← h, husr]
        · simp [login, hu, hv] at h

/-- Witness for C4 on `aliceStore`: registering "bob" and logging in "alice"
both yield tokens expiring 30 minutes after issuance; the bare issue call
without a TTL expires after 15 minutes. -/
theorem token_expiry_defaults_witness :
    create_access_token (some "alice") none 0
      = TokenString.signed { sub := some "alice", exp := 0 + 15 * 60 } SECRET_KEY
    ∧ TokenString.signed { sub := some "bob", exp := 0 + 30 * 60 } SECRET_KEY
      = TokenString.signed { sub := some "bob", exp := 0 + 30 * 60 } SECRET_KEY
    ∧ TokenString.signed { sub := some "alice", exp := 0 + 30 * 60 } SECRET_KEY
      = TokenString.signed { sub := some "alice", exp := 0 + 30 * 60 } SECRET_KEY :=
  ⟨(token_expiry_defaults (some "alice") 0 0 aliceStore noFaults none
      { username := "bob", email := "b@x.com", password := "pw" }
      { username := "alice", password := "pw123" }
      (TokenString.signed { sub := some "bob", exp := 0 + 30 * 60 } SECRET_KEY)
      (TokenString.signed { sub := some "alice", exp := 0 + 30 * 60 } SECRET_KEY)).1,
   (token_expiry_defaults (some "alice") 0 0 aliceStore noFaults none
      { username := "bob", email := "b@x.com", password := "pw" }
      { username := "alice", password := "pw123" }
      (TokenString.signed { sub := some "bob", exp := 0 + 30 * 60 } SECRET_KEY)
      (TokenString.signed { sub := some "alice", exp := 0 + 30 * 60 } SECRET_KEY)).2.1
      (by decide),
   (token_expiry_defaults (some "alice") 0 0 aliceStore noFaults none
      { username := "bob", email := "b@x.com", password := "pw" }
      { username := "alice", password := "pw123" }
      (TokenString.signed { sub := some "bob", exp := 0 + 30 * 60 } SECRET_KEY)
      (TokenString.signed { sub := some "alice", exp := 0 + 30 * 60 } SECRET_KEY)).2.2
      (by decide)⟩

/-- C5 counterexample: a token issued with TTL = 0 verifies successfully
immediately after issuance: `if expires_delta:` treats the zero timedelta as
falsy, so the token receives the 15-minute default expiry instead of
expiring at once. -/
theorem ttl_zero_counterexample :
    jwt_decode (create_access_token (some "alice") (some 0) 1000) SECRET_KEY 1000
      = Except.ok { sub := some "alice", exp := 1000 + 15 * 60 } := by
  rfl

/-- C5 amended: token verification fails for a malformed token, a wrong
signing secret, or once now_utc >= expiry (no clock-skew leeway), and
returns the payload carrying the bound subject otherwise; but a
caller-requested TTL of zero is treated as unset by `if expires_delta:`, so
a TTL=0 token gets the 15-minute default expiry instead of failing
immediately after issuance. -/
theorem token_verification_contract (p : Payload) (s str : String)
    (sub : Option String) (now : Nat) :
    jwt_decode (TokenString.malformed str) SECRET_KEY now = .error ()
    ∧ (s ≠ SECRET_KEY →
        jwt_decode (TokenString.signed p s) SECRET_KEY now = .error ())
    ∧ (p.exp ≤ now →
        jwt_decode (TokenString.signed p SECRET_KEY) SECRET_KEY now = .error ())
    ∧ (now < p.exp →
        jwt_decode (TokenString.signed p SECRET_KEY) SECRET_KEY now = .ok p)
    ∧ create_access_token sub (some 0) now = create_access_token sub none now := by
  refine ⟨rfl, ?_, ?_, ?_, rfl⟩
  · intro hs
    simp [jwt_decode, hs]
  · intro hexp
    simp [jwt_decode, hexp]
  · intro hexp
    simp [jwt_decode, Nat.not_le.mpr hexp]

/-- Witness for C5 at concrete tokens and clock 5. -/
theorem token_verification_contract_witness :
    jwt_decode (TokenString.malformed "zzz") SECRET_KEY 5 = .error ()
    ∧ jwt_decode (TokenString.signed { sub := some "a", exp := 99 } "other")
        SECRET_KEY 5 = .error ()
    ∧ jwt_decode (TokenString.signed { sub := some "a", exp := 3 } SECRET_KEY)
        SECRET_KEY 5 = .error ()
    ∧ jwt_decode (TokenString.signed { sub := some "a", exp := 99 } SECRET_KEY)
        SECRET_KEY 5 = .ok { sub := some "a", exp := 99 }
    ∧ create_access_token (some "a") (some 0) 5 = create_access_token (some "a") none 5 :=
  ⟨(token_verification_contract ⟨some "a", 99⟩ "other" "zzz" (some "a") 5).1,
   (token_verification_contract ⟨some "a", 99⟩ "other" "zzz" (some "a") 5).2.1
     (by decide),
   (token_verification_contract ⟨some "a", 3⟩ "other" "zzz" (some "a") 5).2.2.1
     (by decide),
   (token_verification_contract ⟨some "a", 99⟩ "other" "zzz" (some "a") 5).2.2.2.1
     (by decide),
   (token_verification_contract ⟨some "a", 99⟩ "other" "zzz" (some "a") 5).2.2.2.2⟩

/-- C6 counterexample: a request with no Authorization header is rejected by
the `HTTPBearer` dependency with HTTP 403 "Not authenticated" and no
`WWW-Authenticate` header — not with the 401-plus-challenge used for token
failures. -/
theorem missing_header_counterexample :
    get_current_user_info emptyStore 0 none = .error missing_credentials_error
    ∧ missing_credentials_error.status_code = 403
    ∧ missing_credentials_error.status_code ≠ 401
    ∧ missing_credentials_error.www_authenticate = none :=
  ⟨rfl, rfl, by decide, rfl⟩

/-- C6 amended: on the protected routes a missing Authorization header is
rejected as HTTP 403 "Not authenticated" with no challenge header (before
the route logic runs), while a token signed with a different secret and a
well-formed but expired token are each rejected as HTTP 401 with the
generic detail "Could not validate credentials" and a `WWW-Authenticate:
Bearer` challenge, with no distinction between the token-failure causes. -/
theorem protected_route_unauthorized (store : Store) (now : Nat) (p : Payload)
    (s : String) (c : Option TokenString) (e : HttpErr) :
    get_current_user store now none = .error missing_credentials_error
    ∧ (s ≠ SECRET_KEY →
        get_current_user store now (some (TokenString.signed p s))
          = .error credentials_exception)
    ∧ (p.exp ≤ now →
        get_current_user store now (some (TokenString.signed p SECRET_KEY))
          = .error credentials_exception)
    ∧ (get_current_user store now c = .error e →
        get_current_user_info store now c = .error e
        ∧ get_all_users store now c = .error e)
    ∧ credentials_exception
      = { status_code := 401, detail := "Could not validate credentials",
          www_authenticate := some "Bearer" } := by
  refine ⟨rfl, ?_, ?_, ?_, rfl⟩
  · intro hs
    simp [get_current_user, jwt_decode, hs]
  · intro hexp
    simp [get_current_user, jwt_decode, hexp]
  · intro h
    exact ⟨by simp [get_current_user_info, h], by simp [get_all_users, h]⟩

/-- Witness for C6: missing header, wrong secret, and expired token on the
empty store at clock 5, and error propagation to both protected routes. -/
theorem protected_route_unauthorized_witness :
    get_current_user emptyStore 5 none = .error missing_credentials_error
    ∧ get_current_user emptyStore 5
        (some (TokenString.signed { sub := some "a", exp := 99 } "other"))
      = .error credentials_exception
    ∧ get_current_user emptyStore 5
        (some (TokenString.signed { sub := some "a", exp := 3 } SECRET_KEY))
      = .error credentials_exception
    ∧ (get_current_user_info emptyStore 5 none = .error missing_credentials_error
       ∧ get_all_users emptyStore 5 none = .error missing_credentials_error)
    ∧ credentials_exception
      = { status_code := 401, detail := "Could not validate credentials",
          www_authenticate := some "Bearer" } :=
  ⟨(protected_route_unauthorized emptyStore 5 ⟨some "a", 99⟩ "other" none
      missing_credentials_error).1,
   (protected_route_unauthorized emptyStore 5 ⟨some "a", 99⟩ "other" none
      missing_credentials_error).2.1 (by decide),
   (protected_route_unauthorized emptyStore 5 ⟨some "a", 3⟩ "other" none
      missing_credentials_error).2.2.1 (by decide),
   (protected_route_unauthorized emptyStore 5 ⟨some "a", 99⟩ "other" none
      missing_credentials_error).2.2.2.1 (by rfl),
   (protected_route_unauthorized emptyStore 5 ⟨some "a", 99⟩ "other" none
      missing_credentials_error).2.2.2.2⟩

/-- C7: every user view the API returns is sanitized: the two view
constructors produce only id/username/email/created_at and ignore the stored
password hash, and each endpoint's view is in their image — the optional
user of register and login, the body of the me endpoint, and every element
of the list-users body. -/
theorem sanitized_user_views (store : Store) (hsh : HashString) (u : User)
    (f : RegisterFaults) (e : Option String) (salt now : Nat)
    (d : UserRegister) (ld : UserLogin) (c : Option TokenString)
    (v v' v'' : UserResponse) (l : List PublicUser) :
    userResponseOf { u with password := hsh } = userResponseOf u
    ∧ publicUserOf { u with password := hsh } = publicUserOf u
    ∧ ((register store f salt now d).1.user = some v →
        ∃ w, v = userResponseOf w)
    ∧ ((login store e now ld).user = some v' →
        ∃ w, w ∈ store.users ∧ v' = userResponseOf w)
    ∧ (get_current_user_info store now c = .ok v'' →
        ∃ w, w ∈ store.users ∧ v'' = userResponseOf w)
    ∧ (get_all_users store now c = .ok l → l = store.users.map publicUserOf) := by
  refine ⟨rfl, rfl, ?_, ?_, ?_, ?_⟩
  · intro h
    simp only [register] at h
    repeat' split at h
    all_goals simp at h
    all_goals exact ⟨_, h.symm⟩
  · intro h
    cases e with
    | some s' => simp [login] at h
    | none =>
      cases hu : get_user_by_username store ld.username with
      | none => simp [login, hu] at h
      | some user =>
        by_cases hv : verify_password ld.password user.password
        · simp [login, hu, hv] at h
          exact ⟨user,
            List.mem_of_find?_eq_some (by simpa [get_user_by_username] using hu),
            h.symm⟩
        · simp [login, hu, hv] at h
  · intro h
    simp only [get_current_user_info] at h
    split at h
    · simp at h
    · rename_i user heq
      simp only [Except.ok.injEq] at h
      exact ⟨user, get_current_user_ok_mem store now c user heq, h.symm⟩
  · intro h
    simp only [get_all_users] at h
    split at h
    · simp at h
    · simp only [Except.ok.injEq] at h
      exact h.symm

/-- Witness for C7: views produced on `aliceStore` by a fresh registration,
a successful login, and the two protected routes under a valid token. -/
theorem sanitized_user_views_witness :
    userResponseOf { aliceUser with password := get_password_hash 9 "zzz" }
      = userResponseOf aliceUser
    ∧ publicUserOf { aliceUser with password := get_password_hash 9 "zzz" }
      = publicUserOf aliceUser
    ∧ (∃ w, ({ id := "8", username := "bob", email := "b@x.com",
               created_at := 0 } : UserResponse) = userResponseOf w)
    ∧ (∃ w, w ∈ aliceStore.users
        ∧ ({ id := "7", username := "alice", email := "alice@x.com",
             created_at := 100 } : UserResponse) = userResponseOf w)
    ∧ (∃ w, w ∈ aliceStore.users
        ∧ ({ id := "7", username := "alice", email := "alice@x.com",
             created_at := 100 } : UserResponse) = userResponseOf w)
    ∧ ([{ id := "7", username := "alice", email := "alice@x.com",
          created_at := 100 }] : List PublicUser)
        = aliceStore.users.map publicUserOf :=
  ⟨(sanitized_user_views aliceStore (get_password_hash 9 "zzz") aliceUser
      noFaults none 0 0 { username := "bob", email := "b@x.com", password := "pw" }
      { username := "alice", password := "pw123" }
      (some (TokenString.signed { sub := some "alice", exp := 10 } SECRET_KEY))
      { id := "8", username := "bob", email := "b@x.com", created_at := 0 }
      { id := "7", username := "alice", email := "alice@x.com", created_at := 100 }
      { id := "7", username := "alice", email := "alice@x.com", created_at := 100 }
      [{ id := "7", username := "alice", email := "alice@x.com",
         created_at := 100 }]).1,
   (sanitized_user_views aliceStore (get_password_hash 9 "zzz") aliceUser
      noFaults none 0 0 { username := "bob", email := "b@x.com", password := "pw" }
      { username := "alice", password := "pw123" }
      (some (TokenString.signed { sub := some "alice", exp := 10 } SECRET_KEY))
      { id := "8", username := "bob", email := "b@x.com", created_at := 0 }
      { id := "7", username := "alice", email := "alice@x.com", created_at := 100 }
      { id := "7", username := "alice", email := "alice@x.com", created_at := 100 }
      [{ id := "7", username := "alice", email := "alice@x.com",
         created_at := 100 }]).2.1,
   (sanitized_user_views aliceStore (get_password_hash 9 "zzz") aliceUser
      noFaults none 0 0 { username := "bob", email := "b@x.com", password := "pw" }
      { username := "alice", password := "pw123" }
      (some (TokenString.signed { sub := some "alice", exp := 10 } SECRET_KEY))
      { id := "8", username := "bob", email := "b@x.com", created_at := 0 }
      { id := "7", username := "alice", email := "alice@x.com", created_at := 100 }
      { id := "7", username := "alice", email := "alice@x.com", created_at := 100 }
      [{ id := "7", username := "alice", email := "alice@x.com",
         created_at := 100 }]).2.2.1 (by rfl),
   (sanitized_user_views aliceStore (get_password_hash 9 "zzz") aliceUser
      noFaults none 0 0 { username := "bob", email := "b@x.com", password := "pw" }
      { username := "alice", password := "pw123" }
      (some (TokenString.signed { sub := some "alice", exp := 10 } SECRET_KEY))
      { id := "8", username := "bob", email := "b@x.com", created_at := 0 }
      { id := "7", username := "alice", email := "alice@x.com", created_at := 100 }
      { id := "7", username := "alice", email := "alice@x.com", created_at := 100 }
      [{ id := "7", username := "alice", email := "alice@x.com",
         created_at := 100 }]).2.2.2.1 (by rfl),
   (sanitized_user_views aliceStore (get_password_hash 9 "zzz") aliceUser
      noFaults none 0 0 { username := "bob", email := "b@x.com", password := "pw" }
      { username := "alice", password := "pw123" }
      (some (TokenString.signed { sub := some "alice", exp := 10 } SECRET_KEY))
      { id := "8", username := "bob", email := "b@x.com", created_at := 0 }
      { id := "7", username := "alice", email := "alice@x.com", created_at := 100 }
      { id := "7", username := "alice", email := "alice@x.com", created_at := 100 }
      [{ id := "7", username := "alice", email := "alice@x.com",
         created_at := 100 }]).2.2.2.2.1 (by rfl),
   (sanitized_user_views aliceStore (get_password_hash 9 "zzz") aliceUser
      noFaults none 0 0 { username := "bob", email := "b@x.com", password := "pw" }
      { username := "alice", password := "pw123" }
      (some (TokenString.signed { sub := some "alice", exp := 10 } SECRET_KEY))
      { id := "8", username := "bob", email := "b@x.com", created_at := 0 }
      { id := "7", username := "alice", email := "alice@x.com", created_at := 100 }
      { id := "7", username := "alice", email := "alice@x.com", created_at := 100 }
      [{ id := "7", username := "alice", email := "alice@x.com",
         created_at := 100 }]).2.2.2.2.2 (by rfl)⟩

/-- C8: `register` is total and non-throwing: every run produces either the
success response or a success=false response with one of the three expected
rejection messages, or a success=false response whose message embeds the raw
transport error text after "Registration failed: ". -/
theorem register_never_raises (store : Store) (f : RegisterFaults)
    (salt now : Nat) (d : UserRegister) :
    ((register store f salt now d).1.success = true
      ∧ (register store f salt now d).1.message = "User created successfully")
    ∨ ((register store f salt now d).1.success = false
      ∧ ((register store f salt now d).1.message = "Username already exists"
        ∨ (register store f salt now d).1.message = "Email already registered"
        ∨ (register store f salt now d).1.message = "Failed to create user"
        ∨ ∃ err, (register store f salt now d).1.message
            = "Registration failed: " ++ err)) := by
  simp only [register]
  repeat' split
  all_goals first
    | exact Or.inl ⟨rfl, rfl⟩
    | exact Or.inr ⟨rfl, Or.inl rfl⟩
    | exact Or.inr ⟨rfl, Or.inr (Or.inl rfl)⟩
    | exact Or.inr ⟨rfl, Or.inr (Or.inr (Or.inl rfl))⟩
    | exact Or.inr ⟨rfl, Or.inr (Or.inr (Or.inr ⟨_, rfl⟩))⟩

/-- C9 counterexample: a register request with empty username and empty
password is not rejected: on the empty store it succeeds (HTTP 200 body with
success=true) and the user is written to the store. -/
theorem empty_fields_counterexample :
    register emptyStore noFaults 0 0
        { username := "", email := "a@x.com", password := "" }
      = ({ success := true, message := "User created successfully",
           user := some { id := "0", username := "", email := "a@x.com",
                          created_at := 0 },
           token := some (TokenString.signed { sub := some "", exp := 30 * 60 }
                            SECRET_KEY) },
         { users := [{ objectId := 0, username := "", email := "a@x.com",
                       password := get_password_hash 0 "", created_at := 0 }],
           nextId := 1 }) := by
  rfl

/-- C9 amended: `register` performs no empty-field validation: a request
with empty username and empty password is processed exactly like any other —
absent duplicates and store faults it succeeds with success=true and the
user document, empty fields included, is written to the store. -/
theorem register_no_empty_field_validation (store : Store) (salt now : Nat)
    (em pw : String)
    (h₁ : get_user_by_username store "" = none)
    (h₂ : get_user_by_email store em = none)
    (h₃ : ∀ w ∈ store.users, w.objectId ≠ store.nextId) :
    register store noFaults salt now { username := "", email := em, password := pw }
      = ({ success := true, message := "User created successfully",
           user := some { id := toString store.nextId, username := "", email := em,
                          created_at := now },
           token := some (TokenString.signed { sub := some "", exp := now + 30 * 60 }
                            SECRET_KEY) },
         { users := store.users ++
             [{ objectId := store.nextId, username := "", email := em,
                password := get_password_hash salt pw, created_at := now }],
           nextId := store.nextId + 1 }) := by
  have hfind := find_objectId_append store.users
    { objectId := store.nextId, username := "", email := em,
      password := get_password_hash salt pw, created_at := now }
    store.nextId rfl h₃
  simp [register, noFaults, h₁, h₂, get_user_by_id, hfind, userResponseOf,
    create_access_token, ACCESS_TOKEN_EXPIRE_MINUTES]

/-- Witness for C9 on the empty store. -/
theorem register_no_empty_field_validation_witness :
    register emptyStore noFaults 3 9
        { username := "", email := "e@x.com", password := "" }
      = ({ success := true, message := "User created successfully",
           user := some { id := toString emptyStore.nextId, username := "",
                          email := "e@x.com", created_at := 9 },
           token := some (TokenString.signed { sub := some "", exp := 9 + 30 * 60 }
                            SECRET_KEY) },
         { users := emptyStore.users ++
             [{ objectId := emptyStore.nextId, username := "", email := "e@x.com",
                password := get_password_hash 3 "", created_at := 9 }],
           nextId := emptyStore.nextId + 1 }) :=
  register_no_empty_field_validation emptyStore 3 9 "e@x.com" "" rfl rfl
    (by simp [emptyStore])

/-- C10: a token validly signed with the process secret and unexpired but
carrying no "sub" claim is rejected by the Access Guard with the same 401
"Could not validate credentials" failure raised for an invalid token, on
both protected routes, so the downstream operations never run. -/
theorem missing_sub_claim_rejected (store : Store) (now instant : Nat)
    (hexp : now < instant) :
    get_current_user store now
        (some (TokenString.signed { sub := none, exp := instant } SECRET_KEY))
      = .error credentials_exception
    ∧ get_current_user_info store now
        (some (TokenString.signed { sub := none, exp := instant } SECRET_KEY))
      = .error credentials_exception
    ∧ get_all_users store now
        (some (TokenString.signed { sub := none, exp := instant } SECRET_KEY))
      = .error credentials_exception
    ∧ get_current_user store now (some (TokenString.malformed "bad"))
      = .error credentials_exception := by
  have hne : ¬instant ≤ now := Nat.not_le.mpr hexp
  refine ⟨?_, ?_, ?_, rfl⟩
  · simp [get_current_user, jwt_decode, hne]
  · simp [get_current_user_info, get_current_user, jwt_decode, hne]
  · simp [get_all_users, get_current_user, jwt_decode, hne]

/-- Witness for C10 on `aliceStore` at clock 0 with expiry 10. -/
theorem missing_sub_claim_rejected_witness :
    get_current_user aliceStore 0
        (some (TokenString.signed { sub := none, exp := 10 } SECRET_KEY))
      = .error credentials_exception
    ∧ get_current_user_info aliceStore 0
        (some (TokenString.signed { sub := none, exp := 10 } SECRET_KEY))
      = .error credentials_exception
    ∧ get_all_users aliceStore 0
        (some (TokenString.signed { sub := none, exp := 10 } SECRET_KEY))
      = .error credentials_exception
    ∧ get_current_user aliceStore 0 (some (TokenString.malformed "bad"))
      = .error credentials_exception :=
  missing_sub_claim_rejected aliceStore 0 10 (by decide)

end HealthApp
